import Mathlib

/-!
Verification of the ChatSession connector of Koba_Agents
(src/frontend/src/hooks/useChat.js and src/unnamed/part_006 = fileService.js).

The hook is embedded shallowly:

* The pure inbound-frame dispatcher `handleServerMessage` becomes a function
  `Frame → ChatState → ChatState × Output`.
* `sendMessage` and `clearMessages` become functions of the inputs the JS
  closure reads, with the external collaborators (Supabase storage, HTTP
  responses) passed in as oracles, returning the new local state together
  with the transmitted frames and the surfaced alerts.
* The connection lifecycle (the React effect keyed on the access token,
  `connectWebSocket`, the WebSocket callbacks and the backoff timers) becomes
  a deterministic small-step machine `Machine`/`step` whose events are the
  points where the single-threaded event loop hands control back to the
  closure: effect (re-)runs on token change, ticket-fetch resolution,
  socket open/close delivery, timer firing.
-/

namespace KobaChat

/-- A File Reference: filename, storage path, mime type, size
(spec section 3; built in uploadFiles of fileService.js). -/
structure FileRef where
  filename : String
  path : String
  mime_type : String
  size : Nat
deriving DecidableEq

/-- A transcript entry / outbound frame body.  JS messages are plain objects;
fields that may be absent (undefined) are `Option`.  `mtype` models the
optional `type` field: entries appended by `handleServerMessage` carry no
`type` field, entries appended by `sendMessage` carry `type: "message"`. -/
structure Msg where
  mtype : Option String
  sender : Option String
  content : Option String
  files : Option (List FileRef)
  timestamp : Option Nat
deriving DecidableEq

/-- The transient status indicator set by `setStatus`. -/
structure StatusVal where
  content : Option String
  icon : Option String
deriving DecidableEq

/-- The local react state touched by the frame handler:
`messages` (the transcript) and `status`. -/
structure ChatState where
  messages : List Msg
  status : Option StatusVal
deriving DecidableEq

/-- An inbound frame: a parsed JSON object.  Every field the handler reads is
listed; `extra` stands for any further fields the object may carry, which the
handler never reads. -/
structure Frame where
  ftype : Option String
  messages : List Msg := []
  sender : Option String := none
  content : Option String := none
  files : Option (List FileRef) := none
  timestamp : Option Nat := none
  icon : Option String := none
  code : Option String := none
  extra : List (String × String) := []
deriving DecidableEq

/-- Side effects surfaced by the handlers: blocking alerts and console
warnings. -/
structure Output where
  alerts : List String := []
  warns : List String := []
deriving DecidableEq

/-- Embedding of `handleServerMessage` (useChat.js lines 12-47): a switch on
`data.type` updating `messages`/`status` and surfacing alerts. -/
def handleServerMessage (data : Frame) (s : ChatState) : ChatState × Output :=
  match data.ftype with
  | some "history" =>
      ({ messages := data.messages, status := none }, {})
  | some "message" =>
      ({ messages := s.messages ++
           [{ mtype := none, sender := data.sender, content := data.content,
              files := data.files, timestamp := data.timestamp }],
         status := none }, {})
  | some "status" =>
      ({ s with status := some { content := data.content, icon := data.icon } }, {})
  | some "error" =>
      if data.code = some "AUTH_REQUIRED" then
        ({ s with status := none },
         { alerts := ["Authentication Session Expired"] })
      else
        ({ s with status := none }, { alerts := ["Error"] })
  | _ =>
      (s, { warns := ["Unknown message type"] })

/-- Fold `handleServerMessage` over a list of inbound frames, in delivery
order, keeping only the state. -/
def processFrames (s : ChatState) (fs : List Frame) : ChatState :=
  fs.foldl (fun st f => (handleServerMessage f st).1) s

/-- The projection a `message` frame is reduced to before being appended. -/
def projMsg (f : Frame) : Msg :=
  { mtype := none, sender := f.sender, content := f.content,
    files := f.files, timestamp := f.timestamp }

/-- A browser File object as read by the upload code: `name`, `type`
(here `mime`), `size`. -/
structure JsFile where
  name : String
  mime : String
  size : Nat
deriving DecidableEq

/-- The last-dot split corresponding to `file.name.lastIndexOf` with a dot:
`none` when the name has no dot,
otherwise `(substring before the last dot, substring from the last dot)`. -/
def splitLastDot : List Char → Option (List Char × List Char)
  | [] => none
  | c :: rest =>
      match splitLastDot rest with
      | some (pre, ext) => some (c :: pre, ext)
      | none => if c = '.' then some ([], c :: rest) else none

/-- The filename built for one staged file in `uploadFiles` (fileService.js):
the short id is inserted before the extension, or appended when the name has
no dot. -/
def mkFilename (name shortId : String) : String :=
  match splitLastDot name.toList with
  | none => name ++ "_" ++ shortId
  | some (pre, ext) => String.mk pre ++ "_" ++ shortId ++ String.mk ext

/-- The upload loop of `uploadFiles`: `i` counts the files already handled
(the i-th nanoid is `shortIds i`), `acc` holds the collected File References
in reverse.  `store path = none` is a storage error, which the source throws:
the whole call fails and the references collected so far are discarded. -/
def uploadFilesLoop (shortIds : Nat → String) (store : String → Option Unit)
    (user_id : String) : Nat → List JsFile → List FileRef →
    Option (List FileRef)
  | _, [], acc => some acc.reverse
  | i, f :: rest, acc =>
      let filename := mkFilename f.name (shortIds i)
      let filePath := user_id ++ "/" ++ filename
      match store filePath with
      | none => none
      | some _ =>
          uploadFilesLoop shortIds store user_id (i + 1) rest
            ({ filename := filename, path := filePath,
               mime_type := f.mime, size := f.size } :: acc)

/-- Embedding of `uploadFiles` (fileService.js lines 25-50).  External inputs
are oracles: `shortIds i` is the nanoid drawn for the i-th file and
`store path` is the outcome of the storage upload at that path.  For an empty
list the source returns undefined before the loop; its only caller guards the
call with a non-emptiness test, and the empty case is rendered `some []`. -/
def uploadFiles (shortIds : Nat → String) (store : String → Option Unit)
    (user_id : String) (files : List JsFile) : Option (List FileRef) :=
  uploadFilesLoop shortIds store user_id 0 files []

/-- What one `sendMessage` call produced: the new local state, the frames
transmitted over the channel, the alerts surfaced, and whether `uploadFiles`
was invoked at all. -/
structure SendResult where
  state : ChatState
  sent : List Msg
  alerts : List String
  calledUpload : Bool
deriving DecidableEq

/-- WebSocket readyState as tested by `ws.current?.readyState === OPEN`. -/
inductive ReadyState
  | connecting | wsOpen | closingWs | closedWs
deriving DecidableEq

/-- Embedding of `sendMessage` (useChat.js lines 116-154).  `ready` is the
readyState of `ws.current`; `timestamp` is the `Date.now()` sample; the
upload oracles are passed through to `uploadFiles`.  The appended transcript
entry and the transmitted frame are the same object-literal shape in the
source; here the shared value `m` stands for both. -/
def sendMessage (ready : ReadyState)
    (shortIds : Nat → String) (store : String → Option Unit) (userId : String)
    (text : String) (stagedFiles : List JsFile) (referencedFiles : List FileRef)
    (timestamp : Nat) (st : ChatState) : SendResult :=
  if ready = .wsOpen then
    match stagedFiles with
    | _ :: _ =>
        match uploadFiles shortIds store userId stagedFiles with
        | none =>
            { state := { st with status := none },
              sent := [],
              alerts := ["Failed to upload files. Please try again."],
              calledUpload := true }
        | some uploadedFiles =>
            let allFiles := uploadedFiles ++ referencedFiles
            let m : Msg :=
              { mtype := some "message", sender := some "user",
                content := some text, files := some allFiles,
                timestamp := some timestamp }
            { state := { messages := st.messages ++ [m], status := none },
              sent := [m], alerts := [], calledUpload := true }
    | [] =>
        let allFiles := ([] : List FileRef) ++ referencedFiles
        let m : Msg :=
          { mtype := some "message", sender := some "user",
            content := some text, files := some allFiles,
            timestamp := some timestamp }
        { state := { messages := st.messages ++ [m], status := none },
          sent := [m], alerts := [], calledUpload := false }
  else
    { state := st, sent := [],
      alerts := ["Connection lost. Please wait..."], calledUpload := false }

/-- Embedding of `clearMessages` (useChat.js lines 156-177).  `hasToken` is
`session?.access_token` being present; `response` is the outcome of the
DELETE request: `some b` a response with `ok = b`, `none` a network error.
A non-ok response throws, and both failure paths land in the catch block. -/
def clearMessages (hasToken : Bool) (response : Option Bool)
    (st : ChatState) : ChatState × List String :=
  if hasToken = false then (st, [])
  else
    match response with
    | some true => ({ st with messages := [] }, [])
    | some false => (st, ["Failed to clear chat history"])
    | none => (st, ["Failed to clear chat history"])

/-! ## Connection lifecycle

The React effect (useChat.js lines 49-114) keyed on `session?.access_token`:
each effect run owns two closure variables `socket` and `reconnectTimeout`
shared by every `connectWebSocket` invocation it spawns.  The cleanup closes
`socket` and clears `reconnectTimeout`, but the handlers installed on the
socket stay attached, and an in-flight ticket fetch keeps running.  The
machine below makes each of those event-loop turns one deterministic step. -/

/-- An access token (opaque; identity is all that matters). -/
abbrev Token := Nat

/-- WebSocket lifecycle of one channel.  `closingWs` is entered when
`close()` has been called but the close event has not yet been delivered. -/
inductive SockState
  | connecting | opened | closingWs | closedWs
deriving DecidableEq

/-- One WebSocket: which effect closure installed its handlers, and the
token whose ticket was used to open it. -/
structure SocketRec where
  id : Nat
  effId : Nat
  tok : Token
  state : SockState
deriving DecidableEq

/-- One `setTimeout(connectWebSocket, delayMs)` handle.  `active` is false
once fired or cleared. -/
structure TimerRec where
  id : Nat
  effId : Nat
  delayMs : Nat
  active : Bool
deriving DecidableEq

/-- One in-flight `fetch` of `POST /auth/ticket`, carrying the bearer token
of the closure that issued it. -/
structure FetchRec where
  id : Nat
  effId : Nat
  tok : Token
  pending : Bool
deriving DecidableEq

/-- One effect run: its token and the closure variables `socket` and
`reconnectTimeout` (socket/timer ids). -/
structure EffectRec where
  id : Nat
  tok : Token
  socketVar : Option Nat
  timerVar : Option Nat
deriving DecidableEq

/-- The whole connector state: fresh-id counter, the effect closures ever
created, the sockets, timers and fetches, the `ws.current` ref, the
`isConnected` react state, and the current dependency value of the effect
(`curTok`) with the id of the effect run that is not yet cleaned up. -/
structure Machine where
  nextId : Nat
  curTok : Option Token
  curEff : Option Nat
  effs : List EffectRec
  socks : List SocketRec
  timers : List TimerRec
  fetches : List FetchRec
  wsRef : Option Nat
  isConnected : Bool
deriving DecidableEq

/-- The machine before the first effect run: no token, nothing allocated. -/
def Machine.init : Machine :=
  { nextId := 0, curTok := none, curEff := none, effs := [], socks := [],
    timers := [], fetches := [], wsRef := none, isConnected := false }

/-- The event-loop turns that drive the connector. -/
inductive Event
  /-- `session?.access_token` takes value `t`; React runs the previous
  cleanup and then the effect body. -/
  | tokenChange (t : Option Token)
  /-- The ticket fetch `fid` resolves with a 2xx response and a ticket. -/
  | fetchOk (fid : Nat)
  /-- The ticket fetch `fid` resolves with a non-2xx response. -/
  | fetchHttpErr (fid : Nat)
  /-- The ticket fetch `fid` rejects (network error), landing in the catch. -/
  | fetchNetErr (fid : Nat)
  /-- The open event of socket `sid` is delivered. -/
  | sockOpen (sid : Nat)
  /-- The close event of socket `sid` is delivered (any cause). -/
  | sockClose (sid : Nat)
  /-- The backoff timer `tid` fires. -/
  | timerFire (tid : Nat)
deriving DecidableEq

def lookupEff (m : Machine) (i : Nat) : Option EffectRec :=
  m.effs.find? (fun e => e.id = i)

def lookupSock (m : Machine) (i : Nat) : Option SocketRec :=
  m.socks.find? (fun s => s.id = i)

def lookupTimer (m : Machine) (i : Nat) : Option TimerRec :=
  m.timers.find? (fun t => t.id = i)

def lookupFetch (m : Machine) (i : Nat) : Option FetchRec :=
  m.fetches.find? (fun f => f.id = i)

def setEffSocket (m : Machine) (i : Nat) (s : Option Nat) : Machine :=
  let upd := fun e : EffectRec => if e.id = i then { e with socketVar := s } else e
  { m with effs := m.effs.map upd }

def setEffTimer (m : Machine) (i : Nat) (t : Option Nat) : Machine :=
  let upd := fun e : EffectRec => if e.id = i then { e with timerVar := t } else e
  { m with effs := m.effs.map upd }

def setSockState (m : Machine) (i : Nat) (st : SockState) : Machine :=
  let upd := fun s : SocketRec => if s.id = i then { s with state := st } else s
  { m with socks := m.socks.map upd }

def clearTimer (m : Machine) (i : Nat) : Machine :=
  let upd := fun t : TimerRec => if t.id = i then { t with active := false } else t
  { m with timers := m.timers.map upd }

def resolveFetch (m : Machine) (i : Nat) : Machine :=
  let upd := fun f : FetchRec => if f.id = i then { f with pending := false } else f
  { m with fetches := m.fetches.map upd }

/-- The entry of `connectWebSocket` for the closure `eff`: issue the ticket
request with the closure token (everything after the await is a later
event). -/
def startConnect (m : Machine) (eff : EffectRec) : Machine :=
  { m with
    nextId := m.nextId + 1,
    fetches := m.fetches ++ [{ id := m.nextId, effId := eff.id,
                               tok := eff.tok, pending := true }] }

/-- The shared failure continuation of `connectWebSocket`: both the non-2xx
branch and the catch set `reconnectTimeout = setTimeout(connectWebSocket,
5000)` on the closure of the failed fetch. -/
def fetchFailCont (m : Machine) (f : FetchRec) : Machine :=
  let m1 := resolveFetch m f.id
  let m2 := { m1 with
    nextId := m1.nextId + 1,
    timers := m1.timers ++ [{ id := m1.nextId, effId := f.effId,
                              delayMs := 5000, active := true }] }
  setEffTimer m2 f.effId (some m1.nextId)

/-- `socket.close()`: a no-op on an already closed socket, otherwise the
socket stops being open and a close event is pending. -/
def requestClose (m : Machine) (sid : Nat) : Machine :=
  match lookupSock m sid with
  | none => m
  | some s =>
      if s.state = .closedWs then m else setSockState m sid .closingWs

/-- One deterministic step of the connector.  Events that name a resolved
fetch, an inactive timer, an absent socket, or whose guard fails, are
no-ops (such events cannot arise in the real event loop). -/
def step (m : Machine) : Event → Machine
  | .tokenChange t =>
      if m.curTok = t then m
      else
        -- cleanup of the previous effect run
        let m1 :=
          match m.curEff.bind (lookupEff m) with
          | none => m
          | some e =>
              let ma := match e.socketVar with
                        | some sid => requestClose m sid
                        | none => m
              match e.timerVar with
              | some tid => clearTimer ma tid
              | none => ma
        let m2 := { m1 with curTok := t, curEff := none }
        -- effect body: guard on the token, then connectWebSocket()
        match t with
        | none => m2
        | some tk =>
            let eff : EffectRec :=
              { id := m2.nextId, tok := tk, socketVar := none,
                timerVar := none }
            let m3 := { m2 with
              nextId := m2.nextId + 1,
              curEff := some eff.id,
              effs := m2.effs ++ [eff] }
            startConnect m3 eff
  | .fetchOk fid =>
      match lookupFetch m fid with
      | none => m
      | some f =>
          if f.pending = false then m
          else
            -- socket = new WebSocket(wsUrl); ws.current = socket
            let m1 := resolveFetch m fid
            let sock : SocketRec :=
              { id := m1.nextId, effId := f.effId, tok := f.tok,
                state := .connecting }
            let m2 := { m1 with
              nextId := m1.nextId + 1,
              socks := m1.socks ++ [sock],
              wsRef := some sock.id }
            setEffSocket m2 f.effId (some sock.id)
  | .fetchHttpErr fid =>
      match lookupFetch m fid with
      | none => m
      | some f => if f.pending = false then m else fetchFailCont m f
  | .fetchNetErr fid =>
      match lookupFetch m fid with
      | none => m
      | some f => if f.pending = false then m else fetchFailCont m f
  | .sockOpen sid =>
      match lookupSock m sid with
      | none => m
      | some s =>
          if s.state = .connecting then
            { setSockState m sid .opened with isConnected := true }
          else m
  | .sockClose sid =>
      match lookupSock m sid with
      | none => m
      | some s =>
          if s.state = .closedWs then m
          else
            -- onclose: setIsConnected(false);
            -- reconnectTimeout = setTimeout(connectWebSocket, 3000)
            let m1 := { setSockState m sid .closedWs with
                        isConnected := false }
            let m2 := { m1 with
              nextId := m1.nextId + 1,
              timers := m1.timers ++ [{ id := m1.nextId, effId := s.effId,
                                        delayMs := 3000, active := true }] }
            setEffTimer m2 s.effId (some m1.nextId)
  | .timerFire tid =>
      match lookupTimer m tid with
      | none => m
      | some t =>
          if t.active = false then m
          else
            let m1 := clearTimer m tid
            match lookupEff m1 t.effId with
            | none => m1
            | some e => startConnect m1 e

/-- Run a trace of events from a machine. -/
def run (m : Machine) (es : List Event) : Machine :=
  es.foldl step m

/-- The number of simultaneously open channels. -/
def openCount (m : Machine) : Nat :=
  (m.socks.filter (fun s => s.state = .opened)).length

/-- The tokens whose tickets opened the currently open channels. -/
def openTokens (m : Machine) : List Token :=
  (m.socks.filter (fun s => s.state = .opened)).map (fun s => s.tok)

/-- The object literal `sendMessage` both appends locally and transmits. -/
def mkSentMsg (text : String) (files : List FileRef) (ts : Nat) : Msg :=
  { mtype := some "message", sender := some "user", content := some text,
    files := some files, timestamp := some ts }

/-- An execution schedule realizable on the real event loop: connect with
token 1, open; the token is refreshed to 2 while the channel is open, the
new effect connects and opens; then the close event of the old socket is
delivered, its still-attached onclose handler schedules a reconnect in the
stale closure, the backoff timer fires, and the stale ticket request
resolves (the prior access token is still accepted), opening a third
socket. -/
def zombieTrace : List Event :=
  [ .tokenChange (some 1), .fetchOk 1, .sockOpen 2,
    .tokenChange (some 2), .fetchOk 4, .sockOpen 5,
    .sockClose 2, .timerFire 6, .fetchOk 7, .sockOpen 8 ]

/-! ## Theorems -/

/-- Processing a run of `message` frames appends their projections in
delivery order. -/
theorem processFrames_messages (ms : List Frame) :
    ∀ s : ChatState, (∀ f ∈ ms, f.ftype = some "message") →
      (processFrames s ms).messages = s.messages ++ ms.map projMsg := by
  induction ms with
  | nil => intro s _; simp [processFrames]
  | cons f rest ih =>
      intro s hm
      have hf : f.ftype = some "message" := hm f (List.mem_cons_self _ _)
      have hrest : ∀ g ∈ rest, g.ftype = some "message" :=
        fun g hg => hm g (List.mem_cons_of_mem _ hg)
      have hstep : processFrames s (f :: rest) =
          processFrames (handleServerMessage f s).1 rest := rfl
      rw [hstep, ih _ hrest]
      simp [handleServerMessage, hf, projMsg]

/-- C4: given an Open connection, a history frame carrying H replaces the
entire local transcript with H, each subsequent message frame appends
exactly one entry, and after N message frames the transcript has exactly
H.length + N entries in frame arrival order. -/
theorem C4_history_then_messages (s : ChatState) (hf : Frame)
    (H : List Msg) (ms : List Frame)
    (hh : hf.ftype = some "history") (hH : hf.messages = H)
    (hm : ∀ f ∈ ms, f.ftype = some "message") :
    (processFrames s (hf :: ms)).messages = H ++ ms.map projMsg ∧
    (processFrames s (hf :: ms)).messages.length = H.length + ms.length := by
  have hstep : processFrames s (hf :: ms) =
      processFrames (handleServerMessage hf s).1 ms := rfl
  have hhist : (handleServerMessage hf s).1 =
      { messages := H, status := none } := by
    simp [handleServerMessage, hh, hH]
  rw [hstep, hhist]
  refine ⟨processFrames_messages ms _ hm, ?_⟩
  rw [processFrames_messages ms _ hm]
  simp

/-- C4 witness: a concrete history of two entries followed by two message
frames yields a four-entry transcript in arrival order. -/
theorem C4_history_then_messages_witness :
    (processFrames { messages := [⟨none, some "user", some "stale", none, some 1⟩], status := none }
        [{ ftype := some "history",
           messages := [⟨none, some "user", some "hi", none, some 2⟩,
                        ⟨none, some "agent", some "hello", none, some 3⟩] },
         { ftype := some "message", sender := some "agent", content := some "a", timestamp := some 4 },
         { ftype := some "message", sender := some "user", content := some "b", timestamp := some 5 }]).messages
      = [⟨none, some "user", some "hi", none, some 2⟩,
         ⟨none, some "agent", some "hello", none, some 3⟩,
         ⟨none, some "agent", some "a", none, some 4⟩,
         ⟨none, some "user", some "b", none, some 5⟩] ∧
    (processFrames { messages := [⟨none, some "user", some "stale", none, some 1⟩], status := none }
        [{ ftype := some "history",
           messages := [⟨none, some "user", some "hi", none, some 2⟩,
                        ⟨none, some "agent", some "hello", none, some 3⟩] },
         { ftype := some "message", sender := some "agent", content := some "a", timestamp := some 4 },
         { ftype := some "message", sender := some "user", content := some "b", timestamp := some 5 }]).messages.length
      = 2 + 2 := by
  have h := C4_history_then_messages
    { messages := [⟨none, some "user", some "stale", none, some 1⟩], status := none }
    { ftype := some "history",
      messages := [⟨none, some "user", some "hi", none, some 2⟩,
                   ⟨none, some "agent", some "hello", none, some 3⟩] }
    [⟨none, some "user", some "hi", none, some 2⟩,
     ⟨none, some "agent", some "hello", none, some 3⟩]
    [{ ftype := some "message", sender := some "agent", content := some "a", timestamp := some 4 },
     { ftype := some "message", sender := some "user", content := some "b", timestamp := some 5 }]
    rfl rfl (by decide)
  exact ⟨h.1, h.2⟩

/-- C9: a frame whose type is not history, message, status or error leaves
the transcript and the status unchanged, surfaces no alert and raises no
error; it is only logged as a warning. -/
theorem C9_unrecognized_noop (f : Frame) (s : ChatState)
    (h : f.ftype ∉ [some "history", some "message", some "status", some "error"]) :
    handleServerMessage f s = (s, { alerts := [], warns := ["Unknown message type"] }) := by
  simp only [List.mem_cons, List.not_mem_nil, or_false, not_or] at h
  unfold handleServerMessage
  split <;> simp_all

/-- C9 witness: a ping frame is a no-op on a concrete state. -/
theorem C9_unrecognized_noop_witness :
    handleServerMessage { ftype := some "ping" }
        { messages := [⟨none, some "agent", some "x", none, some 7⟩],
          status := some { content := some "busy", icon := some "i" } }
      = ({ messages := [⟨none, some "agent", some "x", none, some 7⟩],
           status := some { content := some "busy", icon := some "i" } },
         { alerts := [], warns := ["Unknown message type"] }) :=
  C9_unrecognized_noop { ftype := some "ping" } _ (by decide)

/-- C10: a message frame is appended as its projection onto exactly the
fields sender, content, files and timestamp: the type tag and any extra
fields are discarded, missing fields are stored as absent, and no
validation or error occurs; the status is cleared and no alert is raised. -/
theorem C10_message_projection (f : Frame) (s : ChatState)
    (h : f.ftype = some "message") :
    handleServerMessage f s =
      ({ messages := s.messages ++ [projMsg f], status := none }, {}) ∧
    (∀ extra2, handleServerMessage { f with extra := extra2 } s =
      handleServerMessage f s) := by
  constructor
  · simp [handleServerMessage, h, projMsg]
  · intro extra2
    simp [handleServerMessage, h]

/-- C10 witness: a message frame with an unknown extra field and every one
of the four projected fields absent appends one all-absent entry. -/
theorem C10_message_projection_witness :
    handleServerMessage { ftype := some "message", extra := [("ttl", "9")] }
        { messages := [], status := some { content := some "w", icon := none } }
      = ({ messages := [⟨none, none, none, none, none⟩], status := none }, {}) ∧
    handleServerMessage
        { ftype := some "message", extra := [("ttl", "9"), ("v", "2")] }
        { messages := [], status := some { content := some "w", icon := none } }
      = handleServerMessage { ftype := some "message", extra := [("ttl", "9")] }
        { messages := [], status := some { content := some "w", icon := none } } := by
  have h := C10_message_projection
    { ftype := some "message", extra := [("ttl", "9")] }
    { messages := [], status := some { content := some "w", icon := none } } rfl
  exact ⟨h.1, h.2 [("ttl", "9"), ("v", "2")]⟩

/-- C3: a send on an open channel whose staged-file upload fails aborts
atomically: the transcript gains zero entries, no frame is transmitted, the
transient status is cleared, and an upload-failure notice is surfaced. -/
theorem C3_upload_failure_aborts (shortIds : Nat → String)
    (store : String → Option Unit) (userId text : String)
    (stagedFiles : List JsFile) (referencedFiles : List FileRef)
    (ts : Nat) (st : ChatState)
    (hne : stagedFiles ≠ [])
    (hup : uploadFiles shortIds store userId stagedFiles = none) :
    sendMessage .wsOpen shortIds store userId text stagedFiles
        referencedFiles ts st =
      { state := { messages := st.messages, status := none },
        sent := [],
        alerts := ["Failed to upload files. Please try again."],
        calledUpload := true } := by
  cases stagedFiles with
  | nil => exact absurd rfl hne
  | cons f rest => simp [sendMessage, hup]

/-- C3 witness: sending hi with two staged files where the storage rejects
the second upload leaves a one-entry transcript untouched, transmits
nothing, clears the status and surfaces the upload-failure alert. -/
theorem C3_upload_failure_aborts_witness :
    uploadFiles (fun _ => "z9") (fun p => if p = "u1/a_z9.txt" then some () else none)
        "u1" [⟨"a.txt", "text/plain", 3⟩, ⟨"b.png", "image/png", 4⟩] = none ∧
    sendMessage .wsOpen (fun _ => "z9")
        (fun p => if p = "u1/a_z9.txt" then some () else none) "u1" "hi"
        [⟨"a.txt", "text/plain", 3⟩, ⟨"b.png", "image/png", 4⟩] []
        10 { messages := [⟨none, some "agent", some "old", none, some 1⟩], status := none }
      = { state := { messages := [⟨none, some "agent", some "old", none, some 1⟩],
                     status := none },
          sent := [],
          alerts := ["Failed to upload files. Please try again."],
          calledUpload := true } := by
  refine ⟨by decide, ?_⟩
  exact C3_upload_failure_aborts (fun _ => "z9")
    (fun p => if p = "u1/a_z9.txt" then some () else none) "u1" "hi"
    [⟨"a.txt", "text/plain", 3⟩, ⟨"b.png", "image/png", 4⟩] [] 10
    { messages := [⟨none, some "agent", some "old", none, some 1⟩], status := none }
    (by decide) (by decide)

/-- C5: a successful send on an open channel appends exactly one message
whose file list is the uploaded File References followed by the referenced
files in order, with sender user, the given text and timestamp; the
transmitted frame is the very same value; the status ends cleared; and the
append happens only in the branch where every upload succeeded. -/
theorem C5_successful_send (shortIds : Nat → String)
    (store : String → Option Unit) (userId text : String)
    (stagedFiles : List JsFile) (referencedFiles : List FileRef)
    (ts : Nat) (st : ChatState) (up : List FileRef)
    (hup : uploadFiles shortIds store userId stagedFiles = some up) :
    sendMessage .wsOpen shortIds store userId text stagedFiles
        referencedFiles ts st =
      { state := { messages :=
                     st.messages ++ [mkSentMsg text (up ++ referencedFiles) ts],
                   status := none },
        sent := [mkSentMsg text (up ++ referencedFiles) ts],
        alerts := [],
        calledUpload := !stagedFiles.isEmpty } := by
  cases stagedFiles with
  | nil =>
      have hup0 : uploadFiles shortIds store userId [] = some [] := rfl
      rw [hup0] at hup
      cases hup
      simp [sendMessage, mkSentMsg]
  | cons f rest => simp [sendMessage, hup, mkSentMsg]

/-- C5 witness: a concrete successful send with one staged file and one
referenced file appends and transmits one message whose file list is the
fresh upload followed by the referenced file. -/
theorem C5_successful_send_witness :
    uploadFiles (fun _ => "z9") (fun _ => some ()) "u1"
        [⟨"a.txt", "text/plain", 3⟩]
      = some [⟨"a_z9.txt", "u1/a_z9.txt", "text/plain", 3⟩] ∧
    sendMessage .wsOpen (fun _ => "z9") (fun _ => some ()) "u1" "hi"
        [⟨"a.txt", "text/plain", 3⟩] [⟨"old.pdf", "u1/old.pdf", "application/pdf", 8⟩]
        10 { messages := [], status := none }
      = { state := { messages :=
                       [mkSentMsg "hi" [⟨"a_z9.txt", "u1/a_z9.txt", "text/plain", 3⟩,
                                        ⟨"old.pdf", "u1/old.pdf", "application/pdf", 8⟩] 10],
                     status := none },
          sent := [mkSentMsg "hi" [⟨"a_z9.txt", "u1/a_z9.txt", "text/plain", 3⟩,
                                   ⟨"old.pdf", "u1/old.pdf", "application/pdf", 8⟩] 10],
          alerts := [],
          calledUpload := true } := by
  refine ⟨by decide, ?_⟩
  exact C5_successful_send (fun _ => "z9") (fun _ => some ()) "u1" "hi"
    [⟨"a.txt", "text/plain", 3⟩] [⟨"old.pdf", "u1/old.pdf", "application/pdf", 8⟩]
    10 { messages := [], status := none }
    [⟨"a_z9.txt", "u1/a_z9.txt", "text/plain", 3⟩] (by decide)

/-- C8: a send while the channel is not Open fails immediately: it surfaces
the connection-lost notice, never invokes the upload routine, transmits no
frame, and leaves the local state unchanged. -/
theorem C8_send_while_disconnected (ready : ReadyState)
    (shortIds : Nat → String) (store : String → Option Unit)
    (userId text : String) (stagedFiles : List JsFile)
    (referencedFiles : List FileRef) (ts : Nat) (st : ChatState)
    (h : ready ≠ .wsOpen) :
    sendMessage ready shortIds store userId text stagedFiles
        referencedFiles ts st =
      { state := st, sent := [],
        alerts := ["Connection lost. Please wait..."],
        calledUpload := false } := by
  simp [sendMessage, h]

/-- C8 witness: a send on a closed channel with a staged file changes
nothing and surfaces the connection-lost alert. -/
theorem C8_send_while_disconnected_witness :
    sendMessage .closedWs (fun _ => "z9") (fun _ => some ()) "u1" "hi"
        [⟨"a.txt", "text/plain", 3⟩] []
        10 { messages := [⟨none, some "agent", some "old", none, some 1⟩],
             status := some { content := some "busy", icon := none } }
      = { state := { messages := [⟨none, some "agent", some "old", none, some 1⟩],
                     status := some { content := some "busy", icon := none } },
          sent := [],
          alerts := ["Connection lost. Please wait..."],
          calledUpload := false } :=
  C8_send_while_disconnected .closedWs (fun _ => "z9") (fun _ => some ())
    "u1" "hi" [⟨"a.txt", "text/plain", 3⟩] [] 10
    { messages := [⟨none, some "agent", some "old", none, some 1⟩],
      status := some { content := some "busy", icon := none } }
    (by decide)

/-- C7: with a token present, a successful clear empties the transcript
with no alert; a failing clear (non-2xx or network error) leaves the state
exactly as it was and surfaces the error notice; and a second successful
clear after a first one also leaves an empty transcript. -/
theorem C7_clear_history (st : ChatState) :
    clearMessages true (some true) st = ({ st with messages := [] }, []) ∧
    (∀ r, r ≠ some true →
      clearMessages true r st = (st, ["Failed to clear chat history"])) ∧
    ((clearMessages true (some true)
        (clearMessages true (some true) st).1).1).messages = [] := by
  refine ⟨rfl, ?_, rfl⟩
  intro r hr
  match r with
  | none => rfl
  | some false => rfl
  | some true => exact absurd rfl hr

/-- C7 witness: on a one-entry transcript, a successful clear empties it, a
network-failing clear leaves it untouched with the error alert, and clearing
twice still yields an empty transcript. -/
theorem C7_clear_history_witness :
    clearMessages true (some true)
        { messages := [⟨none, some "agent", some "old", none, some 1⟩], status := none }
      = ({ messages := [], status := none }, []) ∧
    clearMessages true none
        { messages := [⟨none, some "agent", some "old", none, some 1⟩], status := none }
      = ({ messages := [⟨none, some "agent", some "old", none, some 1⟩], status := none },
         ["Failed to clear chat history"]) ∧
    ((clearMessages true (some true)
        (clearMessages true (some true)
          { messages := [⟨none, some "agent", some "old", none, some 1⟩],
            status := none }).1).1).messages = [] := by
  have h := C7_clear_history
    { messages := [⟨none, some "agent", some "old", none, some 1⟩], status := none }
  exact ⟨h.1, h.2.1 none (by decide), h.2.2⟩

/-- C1: evaluation of the connector at the zombie schedule.  After the
token refresh from 1 to 2 while the channel was open, the cleanup closes
the old socket but leaves its onclose handler attached; the handler re-arms
a reconnect in the stale closure, the stale ticket request is accepted, and
a second channel opens: the number of simultaneously open channels reaches
2, violating the at-most-one-connection invariant. -/
theorem C1_two_channels_open :
    openCount (run Machine.init zombieTrace) = 2 := by decide

/-- C2: evaluation of the connector at the zombie schedule.  After the
governing token changed from 1 to 2, two channels end up open and the
second of them was ticketed against the stale token 1 — the token change
did not result in exactly one new channel ticketed against token 2. -/
theorem C2_stale_token_channel :
    (run Machine.init zombieTrace).curTok = some 2 ∧
    openTokens (run Machine.init zombieTrace) = [2, 1] := by decide

/-- C6: the reconnection policy.  A pending ticket request that fails
(non-2xx) schedules exactly one fresh 5000 ms backoff timer on its closure;
the delivery of the close event of any open channel schedules exactly one
fresh 3000 ms backoff timer on the closure of that channel; and the firing
of any scheduled backoff timer re-enters Ticketing by issuing exactly one
fresh ticket request with the closure token (the old ticket is never
stored, so it cannot be reused).  The first and third parts apply to every
reachable state, so the retry chain is unbounded within the component
lifetime. -/
theorem C6_reconnect_policy :
    (∀ (m : Machine) (fid : Nat) (f : FetchRec),
        lookupFetch m fid = some f → f.pending = true →
        (step m (.fetchHttpErr fid)).timers =
          m.timers ++ [{ id := m.nextId, effId := f.effId,
                         delayMs := 5000, active := true }]) ∧
    (∀ (m : Machine) (sid : Nat) (s : SocketRec),
        lookupSock m sid = some s → s.state = .opened →
        (step m (.sockClose sid)).timers =
          m.timers ++ [{ id := m.nextId, effId := s.effId,
                         delayMs := 3000, active := true }]) ∧
    (∀ (m : Machine) (tid : Nat) (t : TimerRec) (e : EffectRec),
        lookupTimer m tid = some t → t.active = true →
        lookupEff m t.effId = some e →
        (step m (.timerFire tid)).fetches =
          m.fetches ++ [{ id := m.nextId, effId := e.id,
                          tok := e.tok, pending := true }]) := by
  refine ⟨?_, ?_, ?_⟩
  · intro m fid f hf hp
    simp [step, hf, hp, fetchFailCont, resolveFetch, setEffTimer]
  · intro m sid s hs hst
    have hne : s.state ≠ SockState.closedWs := by rw [hst]; intro h; cases h
    simp [step, hs, hne, setSockState, setEffTimer]
  · intro m tid t e ht ha he
    have he2 : List.find? (fun x => decide (x.id = t.effId)) m.effs = some e := he
    simp [step, ht, ha, clearTimer, startConnect, lookupEff, he2]

/-- C6 witness: the policy instantiated on concrete machines.  From a fresh
connect attempt, a failing ticket request schedules a 5000 ms timer; on a
machine with an open channel, the close event schedules a 3000 ms timer;
and firing the 5000 ms timer issues a fresh ticket request with the
closure token. -/
theorem C6_reconnect_policy_witness :
    (step (run Machine.init [.tokenChange (some 1)]) (.fetchHttpErr 1)).timers =
      [{ id := 2, effId := 0, delayMs := 5000, active := true }] ∧
    (step (run Machine.init [.tokenChange (some 1), .fetchOk 1, .sockOpen 2])
        (.sockClose 2)).timers =
      [{ id := 3, effId := 0, delayMs := 3000, active := true }] ∧
    (step (run Machine.init [.tokenChange (some 1), .fetchHttpErr 1])
        (.timerFire 2)).fetches =
      [{ id := 1, effId := 0, tok := 1, pending := false },
       { id := 3, effId := 0, tok := 1, pending := true }] := by
  refine ⟨?_, ?_, ?_⟩
  · exact C6_reconnect_policy.1 (run Machine.init [.tokenChange (some 1)]) 1
      { id := 1, effId := 0, tok := 1, pending := true } (by decide) rfl
  · exact C6_reconnect_policy.2.1
      (run Machine.init [.tokenChange (some 1), .fetchOk 1, .sockOpen 2]) 2
      { id := 2, effId := 0, tok := 1, state := .opened } (by decide) rfl
  · exact C6_reconnect_policy.2.2
      (run Machine.init [.tokenChange (some 1), .fetchHttpErr 1]) 2
      { id := 2, effId := 0, delayMs := 5000, active := true }
      { id := 0, tok := 1, socketVar := none, timerVar := some 2 }
      (by decide) rfl (by decide)

end KobaChat
